import Mathlib

set_option linter.unusedVariables false

/-!
Shallow embedding of the embedded WebSocket server in
`apps/hedge-system/src-tauri/src/websocket.rs` (registered in `lib.rs`).

Modelling conventions, applied uniformly:

* Machine integers (`u16`, `u64`, `usize`) are modelled as `Nat`.  The one
  narrowing conversion in the source, `elapsed.num_seconds() as u64` (an
  `i64`-to-`u64` cast in the heartbeat monitor), is modelled exactly as
  reduction modulo `2 ^ 64` (`i64_as_u64`).
* `f64` latencies are modelled as `ℚ`; the literals 50.0 and 100.0 and the
  `<` comparisons on them are exact in both `f64` and `ℚ`.
* Timestamps: the source stores `chrono::Utc::now().to_rfc3339()` strings and
  parses them back with `DateTime::parse_from_rfc3339`, which round-trips on
  every string the program itself produced.  The model therefore uses integer
  epoch seconds (`Int`) for every timestamp field, and the render/parse round
  trip is the identity.  `tokio::time::Instant` is modelled the same way.
  Where a timestamp is interpolated into a reply, the model renders it with
  `toString`.
* `serde_json::Value` is modelled by the inductive `Json`.
  `serde_json::from_str` is external library code; its outcome is passed to
  `process_message` as an `Except String Json` parameter, the `String` of the
  error case being serde's error text (which the source appends after
  "Invalid JSON: ").
* Outbound WebSocket text frames carry serialized JSON; serialization is
  injective and never inspected by the pool, so broadcast payloads are
  modelled as `Json` values directly.
* Concurrency: each atomic critical section of the source becomes one pure
  state transformer; the interleaving of the control surface, the session
  tasks and the two background timers is modelled by the `Step` relation,
  which may fire any transformer at any moment (an over-approximation of the
  tokio schedules, sound for the invariants proved below).
* The outcome of `sender.try_lock()` and `sender.send(..)` at the instant of
  a broadcast, the outcome of `state.try_lock()` in the performance monitor,
  and the outcome of `TcpListener::bind` are external nondeterminism; they
  appear as `Bool` parameters / fields.
-/

/-- Model of `serde_json::Value`. -/
inductive Json where
  | null : Json
  | bool : Bool → Json
  | num : ℚ → Json
  | str : String → Json
  | arr : List Json → Json
  | obj : List (String × Json) → Json

/-- Model of `serde_json::Value::get(key)` on an object (map lookup). -/
def Json.get (j : Json) (key : String) : Option Json :=
  match j with
  | .obj fields => fields.lookup key
  | _ => none

/-- Model of `serde_json::Value::as_str()`. -/
def Json.as_str : Json → Option String
  | .str s => some s
  | _ => none

/-- Lines 75-82: EA metadata captured at AUTH time. -/
structure EAInfo where
  version : String
  platform : String
  account : String
  server_name : Option String
  company_name : Option String
  deriving DecidableEq

/-- Lines 29-42: per-client record stored in the `clients` registry. -/
structure ClientConnection where
  id : String
  connected_at : Int
  last_heartbeat : Int
  authenticated : Bool
  ea_info : Option EAInfo
  message_count : Nat
  error_count : Nat
  latency_ms : Option ℚ
  connection_quality : String
  message_buffer_size : Nat
  last_message_timestamp : Int
  deriving DecidableEq

/-- Lines 16-27: the status record shown to the UI. -/
structure WSServerState where
  is_running : Bool
  port : Nat
  host : String
  connected_clients : Nat
  total_messages_received : Nat
  total_messages_sent : Nat
  errors : Nat
  uptime_seconds : Nat
  started_at : Option Int
  deriving DecidableEq

/-- Lines 84-92: the server configuration. -/
structure WSServerConfig where
  port : Nat
  host : String
  auth_token : String
  max_connections : Nat
  heartbeat_interval_seconds : Nat
  connection_timeout_seconds : Nat
  deriving DecidableEq

/-- Lines 65-73: derived metrics record (`#[derive(Default)]` in the source). -/
structure PerformanceMetrics where
  total_connections : Nat
  peak_connections : Nat
  avg_latency_ms : ℚ
  messages_per_second : ℚ
  error_rate : ℚ
  uptime_seconds : Nat
  deriving DecidableEq

/-- The `Default` instance of `PerformanceMetrics`: every field zero. -/
def PerformanceMetrics.default : PerformanceMetrics :=
  { total_connections := 0, peak_connections := 0, avg_latency_ms := 0,
    messages_per_second := 0, error_rate := 0, uptime_seconds := 0 }

/-- Lines 58-63: a pool handle.  `sender_lock_free` is the outcome of
`sender.try_lock()` at the instant a broadcast reaches this handle, and
`sender_open` the outcome of `sender.send(..)` (the unbounded channel is open
unless the writer task has dropped its receiver). -/
structure Connection where
  id : String
  sender_lock_free : Bool
  sender_open : Bool
  info : ClientConnection
  deriving DecidableEq

/-- Lines 44-49: per-client inbound buffer (allocated, never written). -/
structure MessageBuffer where
  messages : List String
  max_size : Nat
  created_at : Int
  deriving DecidableEq

/-- Lines 51-56: the connection pool.  Hash maps are modelled as association
lists with unique keys maintained by `mapInsert` / `mapRemove`. -/
structure ConnectionPool where
  active_connections : List (String × Connection)
  message_buffers : List (String × MessageBuffer)
  performance_metrics : PerformanceMetrics
  deriving DecidableEq

/-- `HashMap::insert` (replaces any previous binding of the key). -/
def mapInsert {α : Type} (m : List (String × α)) (k : String) (v : α) :
    List (String × α) :=
  (k, v) :: m.filter (fun p => p.1 ≠ k)

/-- `HashMap::remove`. -/
def mapRemove {α : Type} (m : List (String × α)) (k : String) :
    List (String × α) :=
  m.filter (fun p => p.1 ≠ k)

/-- `HashMap::get_mut` followed by an in-place patch; a no-op when the key is
absent, exactly like the source's `if let Some(client) = lock.get_mut(..)`. -/
def mapUpdate {α : Type} (m : List (String × α)) (k : String) (f : α → α) :
    List (String × α) :=
  m.map (fun p => if p.1 = k then (p.1, f p.2) else p)

/-- Lines 107-113: `ConnectionPool::new`. -/
def ConnectionPool.new : ConnectionPool :=
  { active_connections := [], message_buffers := [],
    performance_metrics := PerformanceMetrics.default }

/-- Lines 115-130: `ConnectionPool::add_connection`.  (Defined for
completeness; no code path in the repository invokes it.) -/
def ConnectionPool.add_connection (pool : ConnectionPool) (id : String)
    (connection : Connection) (now : Int) : ConnectionPool :=
  let active := mapInsert pool.active_connections id connection
  let buffers := mapInsert pool.message_buffers id
    { messages := [], max_size := 1000, created_at := now }
  let m1 := { pool.performance_metrics with
    total_connections := pool.performance_metrics.total_connections + 1 }
  let current_count := active.length
  let m2 := if current_count > m1.peak_connections then
    { m1 with peak_connections := current_count } else m1
  { active_connections := active, message_buffers := buffers,
    performance_metrics := m2 }

/-- Lines 132-135: `ConnectionPool::remove_connection`. -/
def ConnectionPool.remove_connection (pool : ConnectionPool) (id : String) :
    ConnectionPool :=
  { pool with
    active_connections := mapRemove pool.active_connections id,
    message_buffers := mapRemove pool.message_buffers id }

/-- Lines 137-139: `ConnectionPool::get_connection`. -/
def ConnectionPool.get_connection (pool : ConnectionPool) (id : String) :
    Option Connection :=
  pool.active_connections.lookup id

/-- Lines 141-154: `ConnectionPool::broadcast_message`.  The loop enqueues the
frame on each handle whose sender mutex `try_lock` succeeds and whose channel
accepts the send, counts those, skips the rest, and returns `Ok(sent_count)`.
It reads `&self` and modifies nothing; the returned pool is the input pool. -/
def ConnectionPool.broadcast_message (pool : ConnectionPool) (message : Json) :
    Except String Nat × ConnectionPool :=
  let sent_count := pool.active_connections.foldl
    (fun n p => if p.2.sender_lock_free && p.2.sender_open then n + 1 else n) 0
  (.ok sent_count, pool)

/-- Lines 156-158: `ConnectionPool::get_performance_metrics`. -/
def ConnectionPool.get_performance_metrics (pool : ConnectionPool) :
    PerformanceMetrics :=
  pool.performance_metrics

/-- Lines 164-170 (and identically lines 561-567): the latency-to-quality
classification, written out at both sites in the source. -/
def qualityOfLatency (latency_ms : ℚ) : String :=
  if latency_ms < 50 then "EXCELLENT"
  else if latency_ms < 100 then "GOOD"
  else "POOR"

/-- Lines 160-172: `ConnectionPool::update_latency`.  (Defined for
completeness; no code path in the repository invokes it.) -/
def ConnectionPool.update_latency (pool : ConnectionPool) (client_id : String)
    (latency_ms : ℚ) : ConnectionPool :=
  match pool.get_connection client_id with
  | none => pool
  | some _ =>
    { pool with active_connections :=
        mapUpdate pool.active_connections client_id (fun conn =>
          { conn with info := { conn.info with
              latency_ms := some latency_ms,
              connection_quality := qualityOfLatency latency_ms } }) }

/-- Lines 94-104 of `websocket.rs`: the server manager.  The task join handles
of the source hold closures capturing a `config.clone()` made inside
`start_server` (lines 215-225, passed to `spawn_server_task` and
`spawn_heartbeat_monitor` at lines 247-251); `task_config` is that captured
snapshot — `some` exactly while those tasks are alive, `none` after `stop`. -/
structure WSServerManager where
  state : WSServerState
  clients : List (String × ClientConnection)
  config : WSServerConfig
  started_at : Option Int
  connection_pool : ConnectionPool
  task_config : Option WSServerConfig
  deriving DecidableEq

/-- Lines 175-205: `WSServerManager::default`. -/
def WSServerManager.default : WSServerManager :=
  { state := { is_running := false, port := 8080, host := "127.0.0.1",
               connected_clients := 0, total_messages_received := 0,
               total_messages_sent := 0, errors := 0, uptime_seconds := 0,
               started_at := none },
    clients := [],
    config := { port := 8080, host := "127.0.0.1",
                auth_token := "hedge-system-default-token",
                max_connections := 10, heartbeat_interval_seconds := 30,
                connection_timeout_seconds := 300 },
    started_at := none,
    connection_pool := ConnectionPool.new,
    task_config := none }

/-- Lines 208-260: `WSServerManager::start_server`.  `now` is the instant of
the call, `bind_ok` the outcome of `TcpListener::bind`.  On success the config
snapshot is cloned into the spawned tasks (`task_config`).  Note that no
counter of `state` is touched. -/
def WSServerManager.start_server (m : WSServerManager) (now : Int)
    (bind_ok : Bool) : Except String WSServerManager :=
  if m.state.is_running then .error "WebSocket server is already running"
  else if bind_ok = false then
    .error ("Failed to bind to " ++ m.config.host ++ ":" ++ toString m.config.port)
  else
    .ok { m with
      state := { m.state with is_running := true, port := m.config.port,
                              host := m.config.host,
                              started_at := some now },
        started_at := some now,
        task_config := some m.config }

/-- Lines 262-297: `WSServerManager::stop_server`.  Aborts the three task
handles (dropping the captured snapshot), clears the client registry
(lines 328-336 `disconnect_all_clients`), and resets `is_running`,
`connected_clients` and `started_at` — and only those. -/
def WSServerManager.stop_server (m : WSServerManager) :
    Except String WSServerManager :=
  if m.state.is_running = false then .ok m
  else
    .ok { m with
      task_config := none,
        clients := [],
        state := { m.state with is_running := false, connected_clients := 0,
                                started_at := none },
        started_at := none }

/-- Lines 299-311: `WSServerManager::get_status` (refreshes `uptime_seconds`
and `connected_clients` in place, then returns the snapshot). -/
def WSServerManager.get_status (m : WSServerManager) (now : Int) :
    WSServerManager × WSServerState :=
  let uptime := match m.started_at with
    | some t0 => (now - t0).toNat
    | none => m.state.uptime_seconds
  let st := { m.state with uptime_seconds := uptime,
                            connected_clients := m.clients.length }
  ({ m with state := st }, st)

/-- Lines 313-315: `WSServerManager::get_clients`. -/
def WSServerManager.get_clients (m : WSServerManager) : List ClientConnection :=
  m.clients.map Prod.snd

/-- Lines 317-326: `WSServerManager::disconnect_client`. -/
def WSServerManager.disconnect_client (m : WSServerManager)
    (client_id : String) : Except String WSServerManager :=
  match m.clients.lookup client_id with
  | some _ => .ok { m with clients := mapRemove m.clients client_id }
  | none => .error ("Client " ++ client_id ++ " not found")

/-- Lines 814-821: the `update_websocket_config` command — replaces the stored
config wholesale and nothing else. -/
def update_websocket_config (m : WSServerManager) (config : WSServerConfig) :
    WSServerManager :=
  { m with config := config }

/-- Lines 762-782: the `start_websocket_server` command — patches port, host
and token into the stored config, then starts. -/
def start_websocket_server (m : WSServerManager) (port : Nat)
    (host : Option String) (auth_token : Option String) (now : Int)
    (bind_ok : Bool) : Except String WSServerManager :=
  let cfg1 := { m.config with port := port }
  let cfg2 := match host with
    | some h => { cfg1 with host := h }
    | none => cfg1
  let cfg3 := match auth_token with
    | some t => { cfg2 with auth_token := t }
    | none => cfg2
  WSServerManager.start_server { m with config := cfg3 } now bind_ok

/-- Lines 496-514: the fresh `ClientConnection` built by `handle_connection`
right after the WebSocket upgrade. -/
def freshClient (client_id : String) (now : Int) : ClientConnection :=
  { id := client_id, connected_at := now, last_heartbeat := now,
    authenticated := false, ea_info := none, message_count := 0,
    error_count := 0, latency_ms := none, connection_quality := "UNKNOWN",
    message_buffer_size := 0, last_message_timestamp := now }

/-- Lines 349-376 (acceptor loop body) plus line 514: the max-connections
check performed against the captured snapshot `cfg`, then insertion of a
fresh client record.  An over-limit socket is dropped with no state change. -/
def accept_connection (m : WSServerManager) (cfg : WSServerConfig)
    (client_id : String) (now : Int) : WSServerManager :=
  if m.clients.length ≥ cfg.max_connections then m
  else { m with clients := mapInsert m.clients client_id (freshClient client_id now) }

/-- Lines 684-691: the `eaInfo` payload read inside `handle_auth_message`. -/
def parseEAInfo (info : Json) : EAInfo :=
  { version := ((info.get "version").bind Json.as_str).getD "unknown",
    platform := ((info.get "platform").bind Json.as_str).getD "unknown",
    account := ((info.get "account").bind Json.as_str).getD "unknown",
    server_name := (info.get "serverName").bind Json.as_str,
    company_name := (info.get "companyName").bind Json.as_str }

/-- Lines 705-709: the AUTH_SUCCESS reply object. -/
def authSuccessResponse (now : Int) (client_id : String) : Json :=
  .obj [("type", .str "AUTH_SUCCESS"), ("timestamp", .str (toString now)),
        ("clientId", .str client_id)]

/-- Lines 696-699: the patch applied to the client record by a successful
AUTH. -/
def authenticate (ea_info : Option EAInfo) (client : ClientConnection) :
    ClientConnection :=
  { client with authenticated := true, ea_info := ea_info }

/-- Lines 669-712: `WSServerManager::handle_auth_message`. -/
def handle_auth_message (json_msg : Json) (client_id : String)
    (clients : List (String × ClientConnection)) (config : WSServerConfig)
    (now : Int) :
    Except String (Option Json × List (String × ClientConnection)) :=
  match (json_msg.get "token").bind Json.as_str with
  | none => .error "Missing auth token"
  | some token =>
    if token ≠ config.auth_token then .error "Invalid auth token"
    else
      let ea_info := (json_msg.get "eaInfo").map parseEAInfo
      let clients1 := mapUpdate clients client_id (authenticate ea_info)
      .ok (some (authSuccessResponse now client_id), clients1)

/-- Lines 720-723 (and lines 611-614): the `last_heartbeat` patch. -/
def patchHeartbeat (now : Int) (client : ClientConnection) : ClientConnection :=
  { client with last_heartbeat := now }

/-- Lines 727-730: the HEARTBEAT_ACK reply object. -/
def heartbeatAckResponse (now : Int) : Json :=
  .obj [("type", .str "HEARTBEAT_ACK"), ("timestamp", .str (toString now))]

/-- Lines 714-733: `WSServerManager::handle_heartbeat_message`. -/
def handle_heartbeat_message (client_id : String)
    (clients : List (String × ClientConnection)) (now : Int) :
    Except String (Option Json × List (String × ClientConnection)) :=
  let clients1 := mapUpdate clients client_id (patchHeartbeat now)
  .ok (some (heartbeatAckResponse now), clients1)

/-- Lines 735-757: `WSServerManager::handle_ea_event_message` — forwards the
payload upward (a log line in the source) and replies nothing; errors when the
client is unauthenticated or unknown, before any mutation. -/
def handle_ea_event_message (json_msg : Json) (client_id : String)
    (clients : List (String × ClientConnection)) :
    Except String (Option Json × List (String × ClientConnection)) :=
  match clients.lookup client_id with
  | some client =>
    if client.authenticated = false then .error "Client not authenticated"
    else .ok (none, clients)
  | none => .error "Client not found"

/-- Line 659: the closed set of EA event types. -/
def eaEventTypes : List String :=
  ["OPENED", "CLOSED", "ERROR", "PRICE", "PONG", "INFO"]

/-- Lines 638-667: `WSServerManager::process_message`.  `parsed` is the
outcome of `serde_json::from_str(message)`. -/
def process_message (parsed : Except String Json) (client_id : String)
    (clients : List (String × ClientConnection)) (config : WSServerConfig)
    (now : Int) :
    Except String (Option Json × List (String × ClientConnection)) :=
  match parsed with
  | .error e => .error ("Invalid JSON: " ++ e)
  | .ok json_msg =>
    match (json_msg.get "type").bind Json.as_str with
    | none => .error "Missing message type"
    | some msg_type =>
      if msg_type = "AUTH" then
        handle_auth_message json_msg client_id clients config now
      else if msg_type = "HEARTBEAT" then
        handle_heartbeat_message client_id clients now
      else if msg_type ∈ eaEventTypes then
        handle_ea_event_message json_msg client_id clients
      else
        .error ("Unknown message type: " ++ msg_type)

/-- Lines 531-538: the per-text-message bookkeeping patch. -/
def bookkeepClient (now : Int) (client : ClientConnection) : ClientConnection :=
  { client with message_count := client.message_count + 1,
                last_heartbeat := now, last_message_timestamp := now }

/-- Lines 556-569: the latency patch after a successful reply send; the
quality recomputation is the same expression as lines 164-170. -/
def recordLatency (total_latency : ℚ) (client : ClientConnection) :
    ClientConnection :=
  { client with latency_ms := some total_latency,
                connection_quality := qualityOfLatency total_latency }

/-- Lines 589-594: the per-client error-count patch. -/
def incrErrorCount (client : ClientConnection) : ClientConnection :=
  { client with error_count := client.error_count + 1 }

/-- Outcome of one iteration of the `handle_connection` read loop
(lines 519-629): the mutated status and registry, the reply actually written
to the socket, and whether the loop continues (`false` models `break`). -/
structure SessionStepResult where
  state : WSServerState
  clients : List (String × ClientConnection)
  sent_reply : Option Json
  continue_loop : Bool

/-- Lines 523-597: the `Ok(Message::Text(text))` arm.  `total_latency` is the
`message_start_time.elapsed()` measurement, `send_ok` the outcome of
`ws_sender.send`. -/
def session_text_step (parsed : Except String Json) (client_id : String)
    (state : WSServerState) (clients : List (String × ClientConnection))
    (config : WSServerConfig) (now : Int) (total_latency : ℚ)
    (send_ok : Bool) : SessionStepResult :=
  let state1 := { state with
    total_messages_received := state.total_messages_received + 1 }
  let clients1 := mapUpdate clients client_id (bookkeepClient now)
  match process_message parsed client_id clients1 config now with
  | .ok (some resp, clients2) =>
    if send_ok = false then
      { state := state1, clients := clients2, sent_reply := none,
        continue_loop := false }
    else
      let clients3 := mapUpdate clients2 client_id (recordLatency total_latency)
      { state := { state1 with
          total_messages_sent := state1.total_messages_sent + 1 },
          clients := clients3, sent_reply := some resp, continue_loop := true }
  | .ok (none, clients2) =>
    { state := state1, clients := clients2, sent_reply := none,
      continue_loop := true }
  | .error _ =>
    { state := { state1 with errors := state1.errors + 1 },
        clients := mapUpdate clients1 client_id incrErrorCount,
        sent_reply := none, continue_loop := true }

/-- Lines 598-600: the `Ok(Message::Binary(_))` arm — a `warn!` log line and
nothing else. -/
def session_binary_step (state : WSServerState)
    (clients : List (String × ClientConnection)) : SessionStepResult :=
  { state := state, clients := clients, sent_reply := none,
    continue_loop := true }

/-- Lines 601-607: the `Ok(Message::Ping(..))` arm — replies Pong; a failed
send breaks the loop. -/
def session_ping_step (state : WSServerState)
    (clients : List (String × ClientConnection)) (send_ok : Bool) :
    SessionStepResult :=
  { state := state, clients := clients, sent_reply := none,
    continue_loop := send_ok }

/-- Lines 608-615: the `Ok(Message::Pong(_))` arm — patches `last_heartbeat`. -/
def session_pong_step (state : WSServerState)
    (clients : List (String × ClientConnection)) (client_id : String)
    (now : Int) : SessionStepResult :=
  { state := state,
      clients := mapUpdate clients client_id (patchHeartbeat now),
      sent_reply := none, continue_loop := true }

/-- Line 632: terminal cleanup after the read loop exits. -/
def session_cleanup (clients : List (String × ClientConnection))
    (client_id : String) : List (String × ClientConnection) :=
  mapRemove clients client_id

/-- The `i64`-to-`u64` cast `as u64` (two's-complement reinterpretation). -/
def i64_as_u64 (n : Int) : Nat := (n % (2 ^ 64)).toNat

/-- Lines 425-429: the periodic HEARTBEAT broadcast payload. -/
def heartbeatBroadcastJson (now : Int) : Json :=
  .obj [("type", .str "HEARTBEAT"), ("timestamp", .str (toString now)),
        ("server", .str "hedge-system-ws")]

/-- Lines 394-433: the body of one tick of `spawn_heartbeat_monitor`, running
with the config snapshot `config` captured at start: collect the ids whose
`last_heartbeat` is older than `connection_timeout_seconds` (the elapsed
seconds pass through `num_seconds() as u64`), remove them from the registry
and the pool, then broadcast the HEARTBEAT frame.  Returns the new registry,
the new pool, and the broadcast's enqueue count. -/
def heartbeat_tick (clients : List (String × ClientConnection))
    (pool : ConnectionPool) (config : WSServerConfig) (now : Int) :
    List (String × ClientConnection) × ConnectionPool × Nat :=
  let inactive := (clients.filter (fun p =>
    i64_as_u64 (now - p.2.last_heartbeat) > config.connection_timeout_seconds)).map Prod.fst
  let clients1 := clients.filter (fun p => p.1 ∉ inactive)
  let pool1 := inactive.foldl (fun acc id => acc.remove_connection id) pool
  let sent := match (pool1.broadcast_message (heartbeatBroadcastJson now)).1 with
    | .ok n => n
    | .error _ => 0
  (clients1, pool1, sent)

/-- The heartbeat tick lifted to the manager. -/
def heartbeat_tick_manager (m : WSServerManager) (cfg : WSServerConfig)
    (now : Int) : WSServerManager :=
  let r := heartbeat_tick m.clients m.connection_pool cfg now
  { m with clients := r.1, connection_pool := r.2.1 }

/-- Lines 444-483: the body of one tick of `spawn_performance_monitor`: when
`state.try_lock()` succeeds (`lock_free`) and the server has a start instant,
refresh `uptime_seconds`; the message-rate, latency and error-rate numbers it
computes go only into `warn!` log lines and are stored nowhere. -/
def performance_monitor_tick (state : WSServerState) (started_at : Option Int)
    (lock_free : Bool) (now : Int) : WSServerState :=
  if lock_free = false then state
  else match started_at with
    | some t0 => { state with uptime_seconds := (now - t0).toNat }
    | none => state

/-- One interleaving step of the whole subsystem: any control command, any
arm of any live session's read loop, or a tick of either background task may
fire.  Session arms carry their own config snapshot `cfg` (the clone passed
to `handle_connection`, which survives even a `stop`); the acceptor and the
reaper run only while their task is alive, i.e. while `task_config` is the
snapshot captured by the last `start`.  Commands that mutate nothing
(`get_clients`, metrics reads) are included where they do mutate
(`get_status` refreshes fields in place, `broadcast_websocket_message`
returns the pool the call leaves behind). -/
inductive Step : WSServerManager → WSServerManager → Prop where
  | start_ok (m : WSServerManager) (now : Int) (m' : WSServerManager) :
      m.start_server now true = .ok m' → Step m m'
  | start_cmd_ok (m : WSServerManager) (port : Nat) (host auth_token : Option String)
      (now : Int) (m' : WSServerManager) :
      start_websocket_server m port host auth_token now true = .ok m' → Step m m'
  | stop (m : WSServerManager) (m' : WSServerManager) :
      m.stop_server = .ok m' → Step m m'
  | status (m : WSServerManager) (now : Int) :
      Step m (m.get_status now).1
  | disconnect (m : WSServerManager) (client_id : String) (m' : WSServerManager) :
      m.disconnect_client client_id = .ok m' → Step m m'
  | update_config (m : WSServerManager) (config : WSServerConfig) :
      Step m (update_websocket_config m config)
  | broadcast_cmd (m : WSServerManager) (message : Json) :
      Step m { m with
        connection_pool := (m.connection_pool.broadcast_message message).2 }
  | accept (m : WSServerManager) (cfg : WSServerConfig) (client_id : String)
      (now : Int) :
      m.task_config = some cfg →
      Step m (accept_connection m cfg client_id now)
  | text (m : WSServerManager) (cfg : WSServerConfig)
      (parsed : Except String Json) (client_id : String) (now : Int)
      (total_latency : ℚ) (send_ok : Bool) :
      Step m (let r := session_text_step parsed client_id m.state m.clients
                cfg now total_latency send_ok
              { m with state := r.state, clients := r.clients })
  | binary (m : WSServerManager) :
      Step m (let r := session_binary_step m.state m.clients
              { m with state := r.state, clients := r.clients })
  | ping (m : WSServerManager) (send_ok : Bool) :
      Step m (let r := session_ping_step m.state m.clients send_ok
              { m with state := r.state, clients := r.clients })
  | pong (m : WSServerManager) (client_id : String) (now : Int) :
      Step m (let r := session_pong_step m.state m.clients client_id now
              { m with state := r.state, clients := r.clients })
  | cleanup (m : WSServerManager) (client_id : String) :
      Step m { m with clients := session_cleanup m.clients client_id }
  | reap (m : WSServerManager) (cfg : WSServerConfig) (now : Int) :
      m.task_config = some cfg →
      Step m (heartbeat_tick_manager m cfg now)
  | perf (m : WSServerManager) (lock_free : Bool) (now : Int) :
      Step m { m with
        state := performance_monitor_tick m.state m.started_at lock_free now }

/-- States reachable from the process-wide singleton's initial state. -/
inductive Reachable : WSServerManager → Prop where
  | init : Reachable WSServerManager.default
  | step (m m' : WSServerManager) : Reachable m → Step m m' → Reachable m'

/-- Per-record consistency of the derived quality class: `UNKNOWN` exactly
while no latency measurement exists, and otherwise the classification of the
most recent measurement. -/
def clientQualityOK (c : ClientConnection) : Prop :=
  (c.connection_quality = "UNKNOWN" ↔ c.latency_ms = none) ∧
  ∀ q : ℚ, c.latency_ms = some q → c.connection_quality = qualityOfLatency q

/- Concrete states used by witnesses and counterexamples: a start at instant
0, one accepted client "c", one malformed text message at instant 1, then the
various control calls the claims talk about. -/

/-- The default configuration (also the snapshot captured by `mStarted`). -/
def cfg0 : WSServerConfig := WSServerManager.default.config

/-- The manager right after a successful `start_server` at instant 0. -/
def mStarted : WSServerManager :=
  (WSServerManager.default.start_server 0 true).toOption.getD WSServerManager.default

/-- `mStarted` after the acceptor admits client "c" at instant 0. -/
def mWithClient : WSServerManager := accept_connection mStarted cfg0 "c" 0

/-- `mWithClient` after client "c" sends one malformed text frame at
instant 1 (serde fails; the session loop counts the error and continues). -/
def mAfterError : WSServerManager :=
  let r := session_text_step (.error "expected value at line 1 column 1") "c"
    mWithClient.state mWithClient.clients cfg0 1 0 true
  { mWithClient with state := r.state, clients := r.clients }

/-- `mAfterError` after `stop_server`. -/
def mStopped : WSServerManager :=
  mAfterError.stop_server.toOption.getD WSServerManager.default

/-- `mStopped` after a successful fresh `start_server` at instant 5. -/
def mRestarted : WSServerManager :=
  (mStopped.start_server 5 true).toOption.getD WSServerManager.default

/-- `mAfterError` after a `get_status` read at instant 5 (which refreshes
`uptime_seconds` in place). -/
def mStatused : WSServerManager := (mAfterError.get_status 5).1

/-- A registry holding exactly the fresh client "c" (accepted at instant 0). -/
def oneClient : List (String × ClientConnection) := [("c", freshClient "c" 0)]

/-- A pool handle whose sender mutex is held by someone else at broadcast
time (its `try_lock` fails). -/
def c2_connA : Connection :=
  { id := "a", sender_lock_free := false, sender_open := true,
    info := freshClient "a" 0 }

/-- A pool handle whose sender is free and open. -/
def c2_connB : Connection :=
  { id := "b", sender_lock_free := true, sender_open := true,
    info := freshClient "b" 0 }

/-- A pool with the two handles above. -/
def c2_pool : ConnectionPool :=
  { active_connections := [("a", c2_connA), ("b", c2_connB)],
    message_buffers := [], performance_metrics := PerformanceMetrics.default }

/-- A configuration differing from `cfg0` in exactly the fields the claim
says take effect without a restart (plus a 1-second timeout). -/
def c7_newcfg : WSServerConfig :=
  { cfg0 with max_connections := 1, heartbeat_interval_seconds := 1,
              connection_timeout_seconds := 1 }

/-- `mWithClient` after `update_websocket_config c7_newcfg` while running. -/
def c7_m : WSServerManager := update_websocket_config mWithClient c7_newcfg

/-- `c7_m` stopped. -/
def c7_stopped : WSServerManager :=
  c7_m.stop_server.toOption.getD WSServerManager.default

/-- `c7_stopped` restarted at instant 9. -/
def c7_restarted : WSServerManager :=
  (c7_stopped.start_server 9 true).toOption.getD WSServerManager.default

/-- The default configuration with a 2-second connection timeout. -/
def c9_cfg : WSServerConfig := { cfg0 with connection_timeout_seconds := 2 }

/-- A well-formed AUTH message with the default token and an `eaInfo`. -/
def c4_json : Json :=
  .obj [("type", .str "AUTH"), ("token", .str "hedge-system-default-token"),
        ("eaInfo", .obj [("version", .str "1.2"), ("platform", .str "MT5"),
                         ("account", .str "A1")])]

/-! Helper lemmas about the association-list map operations. -/

theorem lookup_mapUpdate_self {α : Type} (l : List (String × α)) (k : String)
    (f : α → α) : (mapUpdate l k f).lookup k = (l.lookup k).map f := by
  induction l with
  | nil => rfl
  | cons p t ih =>
    obtain ⟨a, b⟩ := p
    by_cases h : a = k
    · subst h
      show (((if a = a then (a, f b) else (a, b)) :: mapUpdate t a f).lookup a)
        = (Option.map f (((a, b) :: t).lookup a))
      rw [if_pos rfl]
      simp [List.lookup]
    · show (((if a = k then (a, f b) else (a, b)) :: mapUpdate t k f).lookup k)
        = (Option.map f (((a, b) :: t).lookup k))
      rw [if_neg h]
      have hba : (k == a) = false := beq_eq_false_iff_ne.mpr (Ne.symm h)
      simp [List.lookup, hba, ih]

theorem mem_mapUpdate {α : Type} {l : List (String × α)} {k : String}
    {f : α → α} {p : String × α} (hp : p ∈ mapUpdate l k f) :
    ∃ q ∈ l, p = q ∨ p = (q.1, f q.2) := by
  unfold mapUpdate at hp
  rcases List.mem_map.mp hp with ⟨q, hq, rfl⟩
  by_cases h : q.1 = k
  · exact ⟨q, hq, Or.inr (by simp [h])⟩
  · exact ⟨q, hq, Or.inl (by simp [h])⟩

theorem mem_mapInsert {α : Type} {l : List (String × α)} {k : String} {v : α}
    {p : String × α} (hp : p ∈ mapInsert l k v) : p = (k, v) ∨ p ∈ l := by
  unfold mapInsert at hp
  rcases List.mem_cons.mp hp with h | h
  · exact Or.inl h
  · exact Or.inr (List.mem_filter.mp h).1

theorem mem_of_mem_mapRemove {α : Type} {l : List (String × α)} {k : String}
    {p : String × α} (hp : p ∈ mapRemove l k) : p ∈ l :=
  (List.mem_filter.mp hp).1

theorem foldl_count_eq {α : Type} (P : α → Bool) (l : List α) (n : Nat) :
    l.foldl (fun m x => if P x then m + 1 else m) n
      = n + (l.filter P).length := by
  induction l generalizing n with
  | nil => simp
  | cons x t ih =>
    by_cases h : P x
    · simp only [List.foldl_cons, List.filter_cons, h, if_true, ih,
                 List.length_cons]
      omega
    · simp only [List.foldl_cons, List.filter_cons, h, if_false, ih,
                 Bool.false_eq_true]

/-! Helper lemmas characterizing the manager operations' successful outcomes. -/

theorem broadcast_message_eq (pool : ConnectionPool) (message : Json) :
    pool.broadcast_message message =
      (.ok ((pool.active_connections.filter
        (fun p => p.2.sender_lock_free && p.2.sender_open)).length), pool) := by
  unfold ConnectionPool.broadcast_message
  rw [foldl_count_eq]
  simp

theorem start_server_ok_shape {m : WSServerManager} {now : Int} {b : Bool}
    {m' : WSServerManager} (h : m.start_server now b = .ok m') :
    m' = { m with
      state := { m.state with is_running := true, port := m.config.port,
                              host := m.config.host,
                              started_at := some now },
      started_at := some now,
      task_config := some m.config } ∧ m.state.is_running = false := by
  unfold WSServerManager.start_server at h
  split at h
  · exact absurd h (by simp)
  · next hrun =>
    split at h
    · exact absurd h (by simp)
    · simp only [Except.ok.injEq] at h
      exact ⟨h.symm, by simpa using hrun⟩

theorem stop_server_ok_shape {m m' : WSServerManager}
    (h : m.stop_server = .ok m') :
    (m' = m ∧ m.state.is_running = false) ∨
    m' = { m with
      task_config := none,
      clients := [],
      state := { m.state with is_running := false, connected_clients := 0,
                              started_at := none },
      started_at := none } := by
  unfold WSServerManager.stop_server at h
  split at h
  · next hrun =>
    simp only [Except.ok.injEq] at h
    exact Or.inl ⟨h.symm, by simpa using hrun⟩
  · simp only [Except.ok.injEq] at h
    exact Or.inr h.symm

theorem disconnect_client_ok_shape {m m' : WSServerManager} {cid : String}
    (h : m.disconnect_client cid = .ok m') :
    m' = { m with clients := mapRemove m.clients cid } := by
  unfold WSServerManager.disconnect_client at h
  split at h
  · simp only [Except.ok.injEq] at h
    exact h.symm
  · exact absurd h (by simp)

theorem process_message_ok_shape {parsed : Except String Json} {cid : String}
    {l : List (String × ClientConnection)} {cfg : WSServerConfig} {now : Int}
    {r : Option Json} {l' : List (String × ClientConnection)}
    (h : process_message parsed cid l cfg now = .ok (r, l')) :
    l' = l ∨ (∃ ea, l' = mapUpdate l cid (authenticate ea)) ∨
      l' = mapUpdate l cid (patchHeartbeat now) := by
  unfold process_message handle_auth_message handle_heartbeat_message
    handle_ea_event_message at h
  repeat' split at h
  all_goals first
    | (simp only [Except.ok.injEq, Prod.mk.injEq] at h
       first
         | exact Or.inl h.2.symm
         | exact Or.inr (Or.inl ⟨_, h.2.symm⟩)
         | exact Or.inr (Or.inr h.2.symm))
    | exact absurd h (by simp)

/-! Helper lemmas for the quality-class invariant. -/

theorem qualityOfLatency_ne_unknown (L : ℚ) :
    qualityOfLatency L ≠ "UNKNOWN" := by
  unfold qualityOfLatency
  split_ifs <;> decide

theorem clientQualityOK_freshClient (cid : String) (now : Int) :
    clientQualityOK (freshClient cid now) := by
  refine ⟨by simp [freshClient], ?_⟩
  intro q hq
  simp [freshClient] at hq

theorem clientQualityOK_bookkeep {c : ClientConnection}
    (h : clientQualityOK c) (now : Int) :
    clientQualityOK (bookkeepClient now c) := by
  simpa [clientQualityOK, bookkeepClient] using h

theorem clientQualityOK_incr {c : ClientConnection}
    (h : clientQualityOK c) : clientQualityOK (incrErrorCount c) := by
  simpa [clientQualityOK, incrErrorCount] using h

theorem clientQualityOK_authenticate {c : ClientConnection}
    (h : clientQualityOK c) (ea : Option EAInfo) :
    clientQualityOK (authenticate ea c) := by
  simpa [clientQualityOK, authenticate] using h

theorem clientQualityOK_patchHeartbeat {c : ClientConnection}
    (h : clientQualityOK c) (now : Int) :
    clientQualityOK (patchHeartbeat now c) := by
  simpa [clientQualityOK, patchHeartbeat] using h

theorem clientQualityOK_recordLatency (L : ℚ) (c : ClientConnection) :
    clientQualityOK (recordLatency L c) := by
  refine ⟨?_, ?_⟩
  · constructor
    · intro h
      exact absurd h (qualityOfLatency_ne_unknown L)
    · intro h
      simp [recordLatency] at h
  · intro q hq
    simp only [recordLatency, Option.some.injEq] at hq
    subst hq
    rfl

theorem clientsQualityOK_mapUpdate {l : List (String × ClientConnection)}
    {k : String} {f : ClientConnection → ClientConnection}
    (hl : ∀ p ∈ l, clientQualityOK p.2)
    (hf : ∀ c, clientQualityOK c → clientQualityOK (f c)) :
    ∀ p ∈ mapUpdate l k f, clientQualityOK p.2 := by
  intro p hp
  rcases mem_mapUpdate hp with ⟨q, hq, hpq | hpq⟩
  · rw [hpq]
    exact hl q hq
  · rw [hpq]
    exact hf q.2 (hl q hq)

theorem session_text_quality {parsed : Except String Json} {cid : String}
    {state : WSServerState} {clients : List (String × ClientConnection)}
    {cfg : WSServerConfig} {now : Int} {lat : ℚ} {send_ok : Bool}
    (hl : ∀ p ∈ clients, clientQualityOK p.2) :
    ∀ p ∈ (session_text_step parsed cid state clients cfg now lat send_ok).clients,
      clientQualityOK p.2 := by
  have h1 : ∀ p ∈ mapUpdate clients cid (bookkeepClient now),
      clientQualityOK p.2 :=
    clientsQualityOK_mapUpdate hl (fun c hc => clientQualityOK_bookkeep hc now)
  unfold session_text_step
  cases hpr : process_message parsed cid
      (mapUpdate clients cid (bookkeepClient now)) cfg now with
  | error e =>
    simp only [hpr]
    exact clientsQualityOK_mapUpdate h1 (fun c hc => clientQualityOK_incr hc)
  | ok pr =>
    obtain ⟨r, l'⟩ := pr
    have h2 : ∀ p ∈ l', clientQualityOK p.2 := by
      rcases process_message_ok_shape hpr with hsh | ⟨ea, hsh⟩ | hsh
      · rw [hsh]
        exact h1
      · rw [hsh]
        exact clientsQualityOK_mapUpdate h1
          (fun c hc => clientQualityOK_authenticate hc ea)
      · rw [hsh]
        exact clientsQualityOK_mapUpdate h1
          (fun c hc => clientQualityOK_patchHeartbeat hc now)
    cases r with
    | none =>
      simp only [hpr]
      exact h2
    | some resp =>
      by_cases hs : send_ok = false
      · simp only [hpr, if_pos hs]
        exact h2
      · simp only [hpr, if_neg hs]
        exact clientsQualityOK_mapUpdate h2
          (fun c hc => clientQualityOK_recordLatency lat c)

theorem reachable_clients_quality {m : WSServerManager} (h : Reachable m) :
    ∀ p ∈ m.clients, clientQualityOK p.2 := by
  induction h with
  | init =>
    intro p hp
    simp [WSServerManager.default] at hp
  | step mm mm' hr hs ih =>
    cases hs with
    | start_ok now m2 hok =>
      rw [(start_server_ok_shape hok).1]
      exact ih
    | start_cmd_ok port host auth_token now m2 hok =>
      simp only [start_websocket_server] at hok
      rw [(start_server_ok_shape hok).1]
      exact ih
    | stop m2 hok =>
      rcases stop_server_ok_shape hok with ⟨h1, -⟩ | h1
      · rw [h1]
        exact ih
      · rw [h1]
        intro p hp
        simp at hp
    | status now => exact ih
    | disconnect cid m2 hok =>
      rw [disconnect_client_ok_shape hok]
      intro p hp
      exact ih p (mem_of_mem_mapRemove hp)
    | update_config cfg => exact ih
    | broadcast_cmd msg => exact ih
    | accept cfg cid now hcfg =>
      intro p hp
      unfold accept_connection at hp
      by_cases hfull : mm.clients.length ≥ cfg.max_connections
      · rw [if_pos hfull] at hp
        exact ih p hp
      · rw [if_neg hfull] at hp
        rcases mem_mapInsert hp with hh | hh
        · rw [hh]
          exact clientQualityOK_freshClient cid now
        · exact ih p hh
    | text cfg parsed cid now lat send_ok =>
      exact session_text_quality ih
    | binary => exact ih
    | ping send_ok => exact ih
    | pong cid now =>
      exact clientsQualityOK_mapUpdate ih
        (fun c hc => clientQualityOK_patchHeartbeat hc now)
    | cleanup cid =>
      intro p hp
      exact ih p (mem_of_mem_mapRemove hp)
    | reap cfg now hcfg =>
      intro p hp
      exact ih p (List.mem_filter.mp hp).1
    | perf lock_free now => exact ih

theorem foldl_remove_keeps (ids : List String) {pool : ConnectionPool}
    (h : pool.active_connections = [])
    (hm : pool.performance_metrics = PerformanceMetrics.default) :
    (ids.foldl (fun acc id => acc.remove_connection id) pool).active_connections
      = [] ∧
    (ids.foldl (fun acc id => acc.remove_connection id) pool).performance_metrics
      = PerformanceMetrics.default := by
  induction ids generalizing pool with
  | nil => exact ⟨h, hm⟩
  | cons x t ih =>
    simp only [List.foldl_cons]
    exact ih (by simp [ConnectionPool.remove_connection, mapRemove, h])
      (by simp [ConnectionPool.remove_connection, hm])

theorem reachable_pool_invariant {m : WSServerManager} (h : Reachable m) :
    m.connection_pool.active_connections = [] ∧
    m.connection_pool.performance_metrics = PerformanceMetrics.default := by
  induction h with
  | init => exact ⟨rfl, rfl⟩
  | step mm mm' hr hs ih =>
    cases hs with
    | start_ok now m2 hok =>
      rw [(start_server_ok_shape hok).1]
      exact ih
    | start_cmd_ok port host auth_token now m2 hok =>
      simp only [start_websocket_server] at hok
      rw [(start_server_ok_shape hok).1]
      exact ih
    | stop m2 hok =>
      rcases stop_server_ok_shape hok with ⟨h1, -⟩ | h1
      · rw [h1]
        exact ih
      · rw [h1]
        exact ih
    | status now => exact ih
    | disconnect cid m2 hok =>
      rw [disconnect_client_ok_shape hok]
      exact ih
    | update_config cfg => exact ih
    | broadcast_cmd msg => exact ih
    | accept cfg cid now hcfg =>
      unfold accept_connection
      by_cases hfull : mm.clients.length ≥ cfg.max_connections
      · rw [if_pos hfull]
        exact ih
      · rw [if_neg hfull]
        exact ih
    | text cfg parsed cid now lat send_ok => exact ih
    | binary => exact ih
    | ping send_ok => exact ih
    | pong cid now => exact ih
    | cleanup cid => exact ih
    | reap cfg now hcfg =>
      exact foldl_remove_keeps _ ih.1 ih.2
    | perf lock_free now => exact ih

theorem session_text_counters (parsed : Except String Json) (cid : String)
    (state : WSServerState) (clients : List (String × ClientConnection))
    (cfg : WSServerConfig) (now : Int) (lat : ℚ) (send_ok : Bool) :
    state.total_messages_received ≤
      (session_text_step parsed cid state clients cfg now lat
        send_ok).state.total_messages_received ∧
    state.total_messages_sent ≤
      (session_text_step parsed cid state clients cfg now lat
        send_ok).state.total_messages_sent ∧
    state.errors ≤
      (session_text_step parsed cid state clients cfg now lat
        send_ok).state.errors := by
  unfold session_text_step
  cases hpr : process_message parsed cid
      (mapUpdate clients cid (bookkeepClient now)) cfg now with
  | error e =>
    simp only [hpr]
    refine ⟨?_, ?_, ?_⟩ <;> simp
  | ok pr =>
    obtain ⟨r, l'⟩ := pr
    cases r with
    | none =>
      simp only [hpr]
      refine ⟨?_, ?_, ?_⟩ <;> simp
    | some resp =>
      by_cases hs : send_ok = false
      · simp only [hpr, if_pos hs]
        refine ⟨?_, ?_, ?_⟩ <;> simp
      · simp only [hpr, if_neg hs]
        refine ⟨?_, ?_, ?_⟩ <;> simp

theorem step_counters_monotone {m m' : WSServerManager} (h : Step m m') :
    m.state.total_messages_received ≤ m'.state.total_messages_received ∧
    m.state.total_messages_sent ≤ m'.state.total_messages_sent ∧
    m.state.errors ≤ m'.state.errors := by
  cases h with
  | start_ok now m2 hok =>
    rw [(start_server_ok_shape hok).1]
    exact ⟨le_refl _, le_refl _, le_refl _⟩
  | start_cmd_ok port host auth_token now m2 hok =>
    simp only [start_websocket_server] at hok
    rw [(start_server_ok_shape hok).1]
    exact ⟨le_refl _, le_refl _, le_refl _⟩
  | stop m2 hok =>
    rcases stop_server_ok_shape hok with ⟨h1, -⟩ | h1 <;> rw [h1] <;>
      exact ⟨le_refl _, le_refl _, le_refl _⟩
  | status now => exact ⟨le_refl _, le_refl _, le_refl _⟩
  | disconnect cid m2 hok =>
    rw [disconnect_client_ok_shape hok]
    exact ⟨le_refl _, le_refl _, le_refl _⟩
  | update_config cfg => exact ⟨le_refl _, le_refl _, le_refl _⟩
  | broadcast_cmd msg => exact ⟨le_refl _, le_refl _, le_refl _⟩
  | accept cfg cid now hcfg =>
    unfold accept_connection
    by_cases hfull : m.clients.length ≥ cfg.max_connections
    · rw [if_pos hfull]
      exact ⟨le_refl _, le_refl _, le_refl _⟩
    · rw [if_neg hfull]
      exact ⟨le_refl _, le_refl _, le_refl _⟩
  | text cfg parsed cid now lat send_ok =>
    exact session_text_counters parsed cid m.state m.clients cfg now lat send_ok
  | binary => exact ⟨le_refl _, le_refl _, le_refl _⟩
  | ping send_ok => exact ⟨le_refl _, le_refl _, le_refl _⟩
  | pong cid now => exact ⟨le_refl _, le_refl _, le_refl _⟩
  | cleanup cid => exact ⟨le_refl _, le_refl _, le_refl _⟩
  | reap cfg now hcfg => exact ⟨le_refl _, le_refl _, le_refl _⟩
  | perf lock_free now =>
    unfold performance_monitor_tick
    by_cases hl : lock_free = false
    · rw [if_pos hl]
      exact ⟨le_refl _, le_refl _, le_refl _⟩
    · rw [if_neg hl]
      cases m.started_at <;> exact ⟨le_refl _, le_refl _, le_refl _⟩

/-! Reachability of the concrete scenario states. -/

theorem mStarted_reachable : Reachable mStarted :=
  Reachable.step _ _ Reachable.init (Step.start_ok _ 0 _ rfl)

theorem mWithClient_reachable : Reachable mWithClient :=
  Reachable.step _ _ mStarted_reachable (Step.accept mStarted cfg0 "c" 0 rfl)

theorem mAfterError_reachable : Reachable mAfterError :=
  Reachable.step _ _ mWithClient_reachable
    (Step.text mWithClient cfg0 (.error "expected value at line 1 column 1")
      "c" 1 0 true)

theorem mStatused_reachable : Reachable mStatused :=
  Reachable.step _ _ mAfterError_reachable (Step.status mAfterError 5)

/-- C3: the quality class is a pure function of the measured latency, with
EXCELLENT exactly when the latency is below 50 ms, GOOD exactly when it is in
[50, 100) ms, POOR exactly when it is at least 100 ms; and in every reachable
state a client's `connection_quality` is "UNKNOWN" exactly when it has no
`latency_ms` measurement, and otherwise equals the classification of that
measurement — so recomputing the class from the same `latency_ms` always
yields the same result. -/
theorem C3_quality_pure_function_of_latency :
    (∀ L : ℚ,
      (qualityOfLatency L = "EXCELLENT" ↔ L < 50) ∧
      (qualityOfLatency L = "GOOD" ↔ 50 ≤ L ∧ L < 100) ∧
      (qualityOfLatency L = "POOR" ↔ 100 ≤ L)) ∧
    (∀ m : WSServerManager, Reachable m → ∀ p ∈ m.clients,
      (p.2.connection_quality = "UNKNOWN" ↔ p.2.latency_ms = none) ∧
      ∀ q : ℚ, p.2.latency_ms = some q →
        p.2.connection_quality = qualityOfLatency q) := by
  constructor
  · intro L
    unfold qualityOfLatency
    split_ifs with h1 h2
    · exact ⟨⟨fun _ => h1, fun _ => rfl⟩,
        ⟨fun hh => absurd hh (by decide), fun hh => absurd hh.1 (not_le.mpr h1)⟩,
        ⟨fun hh => absurd hh (by decide),
         fun hh => absurd hh (not_le.mpr (by linarith))⟩⟩
    · exact ⟨⟨fun hh => absurd hh (by decide), fun hh => absurd hh h1⟩,
        ⟨fun _ => ⟨not_lt.mp h1, h2⟩, fun _ => rfl⟩,
        ⟨fun hh => absurd hh (by decide), fun hh => absurd h2 (not_lt.mpr hh)⟩⟩
    · exact ⟨⟨fun hh => absurd hh (by decide), fun hh => absurd hh h1⟩,
        ⟨fun hh => absurd hh (by decide), fun hh => absurd hh.2 h2⟩,
        ⟨fun _ => not_lt.mp h2, fun _ => rfl⟩⟩
  · intro m hm p hp
    exact reachable_clients_quality hm p hp

/-- Witness for C3 at concrete latencies and at the reachable state
`mWithClient`, whose only client is fresh (quality UNKNOWN, no latency). -/
theorem C3_quality_pure_function_of_latency_witness :
    qualityOfLatency 30 = "EXCELLENT" ∧ qualityOfLatency 75 = "GOOD" ∧
    qualityOfLatency 200 = "POOR" ∧
    ∀ p ∈ mWithClient.clients,
      (p.2.connection_quality = "UNKNOWN" ↔ p.2.latency_ms = none) :=
  ⟨((C3_quality_pure_function_of_latency.1 30).1).mpr (by norm_num),
   ((C3_quality_pure_function_of_latency.1 75).2.1).mpr (by norm_num),
   ((C3_quality_pure_function_of_latency.1 200).2.2).mpr (by norm_num),
   fun p hp =>
     (C3_quality_pure_function_of_latency.2 mWithClient mWithClient_reachable
       p hp).1⟩

/-- C2 (amended): `broadcast_message` enqueues the frame on every handle whose
sender mutex `try_lock` succeeds and whose (unbounded, hence never full)
channel is still open, returns `Ok` of the number of successful enqueues, and
skips every other handle without blocking and without modifying any state —
in particular a skipped client's error counter is NOT incremented. -/
theorem C2_broadcast_counts_enqueues_and_mutates_nothing :
    ∀ (pool : ConnectionPool) (message : Json),
      pool.broadcast_message message =
        (.ok ((pool.active_connections.filter
          (fun p => p.2.sender_lock_free && p.2.sender_open)).length), pool) :=
  fun pool message => broadcast_message_eq pool message

/-- Counterexample to C2 as stated: handle "a" is skipped (its sender mutex
is held), the broadcast returns 1 for handle "b" alone, and the skipped
client's error counter is still 0 afterwards — not incremented. -/
theorem C2_counterexample :
    (c2_pool.broadcast_message (.str "frame")).1 = .ok 1 ∧
    c2_connA.sender_lock_free = false ∧
    c2_connA.info.error_count = 0 ∧
    ((c2_pool.broadcast_message (.str "frame")).2.active_connections.lookup
        "a").map (fun conn => conn.info.error_count) = some 0 :=
  ⟨rfl, rfl, rfl, rfl⟩

/-- C6 (amended): a binary frame is dropped without being forwarded and the
session continues, but nothing else happens: no server or client error
counter is incremented (the arm is a log line only). -/
theorem C6_binary_dropped_session_continues_no_count :
    ∀ (state : WSServerState) (clients : List (String × ClientConnection)),
      session_binary_step state clients =
        { state := state, clients := clients, sent_reply := none,
          continue_loop := true } :=
  fun state clients => rfl

/-- Counterexample to C6 as stated: after client "c" sends a binary frame,
its error counter is still 0 (not incremented), the server error counter is
unchanged, and the session continues. -/
theorem C6_counterexample :
    (session_binary_step mWithClient.state oneClient).clients.lookup "c" =
      some (freshClient "c" 0) ∧
    (freshClient "c" 0).error_count = 0 ∧
    (session_binary_step mWithClient.state oneClient).state.errors =
      mWithClient.state.errors ∧
    (session_binary_step mWithClient.state oneClient).continue_loop = true :=
  ⟨rfl, rfl, rfl, rfl⟩

theorem tick_sent_zero {clients : List (String × ClientConnection)}
    {pool : ConnectionPool} {cfg : WSServerConfig} {now : Int}
    (h : pool.active_connections = [])
    (hm : pool.performance_metrics = PerformanceMetrics.default) :
    (heartbeat_tick clients pool cfg now).2.2 = 0 := by
  have h2 := foldl_remove_keeps
    ((clients.filter (fun p =>
      i64_as_u64 (now - p.2.last_heartbeat) >
        cfg.connection_timeout_seconds)).map Prod.fst) h hm
  unfold heartbeat_tick
  simp [broadcast_message_eq, h2.1]

/-- C10: in every reachable state the pool's `active_connections` map is
empty — no session or control path ever calls `add_connection` — so
`broadcast_message` always returns `Ok 0` and the reaper's periodic HEARTBEAT
broadcast reaches no client, even when clients sit in the `clients`
registry. -/
theorem C10_pool_always_empty_broadcast_reaches_nobody :
    ∀ m : WSServerManager, Reachable m →
      m.connection_pool.active_connections = [] ∧
      (∀ message : Json,
        (m.connection_pool.broadcast_message message).1 = .ok 0) ∧
      (∀ (cfg : WSServerConfig) (now : Int),
        (heartbeat_tick m.clients m.connection_pool cfg now).2.2 = 0) := by
  intro m hm
  have hinv := reachable_pool_invariant hm
  refine ⟨hinv.1, ?_, ?_⟩
  · intro message
    rw [broadcast_message_eq]
    simp [hinv.1]
  · intro cfg now
    exact tick_sent_zero hinv.1 hinv.2

/-- Witness for C10 at the reachable state `mStatused`, whose registry holds
client "c" while the pool is empty and a broadcast enqueues on nobody. -/
theorem C10_pool_always_empty_broadcast_reaches_nobody_witness :
    mStatused.connection_pool.active_connections = [] ∧
    (mStatused.connection_pool.broadcast_message (.str "x")).1 = .ok 0 ∧
    (heartbeat_tick mStatused.clients mStatused.connection_pool cfg0 6).2.2
      = 0 ∧
    mStatused.clients ≠ [] :=
  ⟨(C10_pool_always_empty_broadcast_reaches_nobody mStatused
      mStatused_reachable).1,
   (C10_pool_always_empty_broadcast_reaches_nobody mStatused
      mStatused_reachable).2.1 (.str "x"),
   (C10_pool_always_empty_broadcast_reaches_nobody mStatused
      mStatused_reachable).2.2 cfg0 6,
   by decide⟩

/-- C8 (amended): a metrics read returns the stored `PerformanceMetrics`
record unchanged; the derived fields (`avg_latency_ms`,
`messages_per_second`, `error_rate`, `uptime_seconds`) are never recomputed
anywhere, and since `add_connection` — the only writer of any field — is
never invoked, every reachable read returns the all-zero default record
regardless of traffic, latency or uptime. -/
theorem C8_metrics_read_returns_default :
    ∀ m : WSServerManager, Reachable m →
      m.connection_pool.get_performance_metrics = PerformanceMetrics.default :=
  fun _ hm => (reachable_pool_invariant hm).2

/-- Witness for C8 at the reachable state `mStatused`. -/
theorem C8_metrics_read_returns_default_witness :
    mStatused.connection_pool.get_performance_metrics
      = PerformanceMetrics.default :=
  C8_metrics_read_returns_default mStatused mStatused_reachable

/-- Counterexample to C8 as stated: in the reachable state `mStatused` one
message has been received, one error counted, and uptime is 5 s, yet the
metrics read reports `messages_per_second = 0` (not 1/5) and
`error_rate = 0` (not 100). -/
theorem C8_counterexample :
    mStatused.state.total_messages_received = 1 ∧
    mStatused.state.errors = 1 ∧
    mStatused.state.uptime_seconds = 5 ∧
    mStatused.connection_pool.get_performance_metrics.messages_per_second
      = 0 ∧
    (mStatused.state.total_messages_received : ℚ) /
        (mStatused.state.uptime_seconds : ℚ) ≠ 0 ∧
    mStatused.connection_pool.get_performance_metrics.error_rate = 0 ∧
    (mStatused.state.errors : ℚ) /
        (mStatused.state.total_messages_received : ℚ) * 100 ≠ 0 := by
  refine ⟨rfl, rfl, rfl, rfl, ?_, rfl, ?_⟩
  · show ((1 : Nat) : ℚ) / ((5 : Nat) : ℚ) ≠ 0
    norm_num
  · show ((1 : Nat) : ℚ) / ((1 : Nat) : ℚ) * 100 ≠ 0
    norm_num

/-- C1 (corrected): `stop_server` followed by a successful `start_server`
carries the three cumulative counters over unchanged — no operation ever
resets them to zero, not even a fresh start — and every step of the system
(control call, session event, or background tick) leaves each counter
monotone non-decreasing. -/
theorem C1_counters_carry_over_and_are_monotone :
    (∀ (m m1 m2 : WSServerManager) (now : Int),
      m.stop_server = .ok m1 → m1.start_server now true = .ok m2 →
      m2.state.total_messages_received = m.state.total_messages_received ∧
      m2.state.total_messages_sent = m.state.total_messages_sent ∧
      m2.state.errors = m.state.errors ∧
      m2.state.is_running = true) ∧
    (∀ m m' : WSServerManager, Step m m' →
      m.state.total_messages_received ≤ m'.state.total_messages_received ∧
      m.state.total_messages_sent ≤ m'.state.total_messages_sent ∧
      m.state.errors ≤ m'.state.errors) := by
  constructor
  · intro m m1 m2 now hstop hstart
    have h2 := (start_server_ok_shape hstart).1
    rcases stop_server_ok_shape hstop with ⟨h1, -⟩ | h1 <;> subst h1 <;>
      rw [h2] <;> exact ⟨rfl, rfl, rfl, rfl⟩
  · exact fun m m' h => step_counters_monotone h

/-- Witness for C1: the concrete stop/start cycle from `mAfterError`. -/
theorem C1_counters_carry_over_and_are_monotone_witness :
    mAfterError.stop_server = .ok mStopped ∧
    mStopped.start_server 5 true = .ok mRestarted ∧
    mRestarted.state.errors = mAfterError.state.errors ∧
    mRestarted.state.total_messages_received =
      mAfterError.state.total_messages_received ∧
    mStarted.state.errors ≤
      (session_binary_step mStarted.state mStarted.clients).state.errors := by
  refine ⟨rfl, rfl, ?_, ?_, ?_⟩
  · exact (C1_counters_carry_over_and_are_monotone.1 mAfterError mStopped
      mRestarted 5 rfl rfl).2.2.1
  · exact (C1_counters_carry_over_and_are_monotone.1 mAfterError mStopped
      mRestarted 5 rfl rfl).1
  · exact (C1_counters_carry_over_and_are_monotone.2 mStarted _
      (Step.binary mStarted)).2.2

/-- Counterexample to C1 as stated: after one counted error, `stop_server`
followed by a successful `start_server` leaves `errors = 1` and
`total_messages_received = 1`, not zero. -/
theorem C1_counterexample :
    mAfterError.stop_server = .ok mStopped ∧
    mStopped.start_server 5 true = .ok mRestarted ∧
    mRestarted.state.errors = 1 ∧
    mRestarted.state.total_messages_received = 1 :=
  ⟨rfl, rfl, rfl, rfl⟩

/-- C7 (corrected): `update_config` atomically replaces only the stored
config; the acceptor and the reaper keep the snapshot captured by the last
`start` (`task_config`), so no field change — heartbeat interval, connection
timeout and max connections included — affects the running tasks; every
change takes effect at the next start, which snapshots the updated config. -/
theorem C7_update_config_takes_effect_only_on_next_start :
    (∀ (m : WSServerManager) (cfg : WSServerConfig),
      (update_websocket_config m cfg).config = cfg ∧
      (update_websocket_config m cfg).task_config = m.task_config ∧
      (update_websocket_config m cfg).clients = m.clients ∧
      (update_websocket_config m cfg).state = m.state) ∧
    (∀ (m m1 m2 : WSServerManager) (cfg : WSServerConfig) (now : Int),
      (update_websocket_config m cfg).stop_server = .ok m1 →
      m1.start_server now true = .ok m2 →
      m2.task_config = some cfg) := by
  constructor
  · exact fun m cfg => ⟨rfl, rfl, rfl, rfl⟩
  · intro m m1 m2 cfg now hstop hstart
    have h2 := (start_server_ok_shape hstart).1
    rcases stop_server_ok_shape hstop with ⟨h1, -⟩ | h1 <;> subst h1 <;>
      rw [h2] <;> rfl

/-- Witness for C7: the concrete reconfigure-stop-start cycle. -/
theorem C7_update_config_takes_effect_only_on_next_start_witness :
    c7_m.stop_server = .ok c7_stopped ∧
    c7_stopped.start_server 9 true = .ok c7_restarted ∧
    c7_restarted.task_config = some c7_newcfg ∧
    (update_websocket_config mWithClient c7_newcfg).task_config =
      mWithClient.task_config := by
  refine ⟨rfl, rfl, ?_, ?_⟩
  · exact C7_update_config_takes_effect_only_on_next_start.2 mWithClient
      c7_stopped c7_restarted c7_newcfg 9 rfl rfl
  · exact (C7_update_config_takes_effect_only_on_next_start.1 mWithClient
      c7_newcfg).2.1

/-- Counterexample to C7 as stated: with client "c" silent since instant 0,
`update_config` installs a 1-second timeout and `max_connections = 1` at a
running server, yet the reaper's next tick (which runs with the start-time
snapshot `cfg0`) does NOT remove the client at instant 5, although a tick
governed by the new config would; and the next accept still admits a second
client although the new bound is 1. -/
theorem C7_counterexample :
    c7_m.state.is_running = true ∧
    c7_m.config = c7_newcfg ∧
    c7_m.task_config = some cfg0 ∧
    cfg0 ≠ c7_newcfg ∧
    (heartbeat_tick_manager c7_m cfg0 5).clients.lookup "c"
      = some (freshClient "c" 0) ∧
    (heartbeat_tick_manager c7_m c7_newcfg 5).clients.lookup "c" = none ∧
    c7_newcfg.max_connections = 1 ∧
    (accept_connection c7_m cfg0 "d" 6).clients.length = 2 := by
  refine ⟨rfl, rfl, rfl, by decide, ?_, ?_, rfl, rfl⟩
  · rfl
  · rfl

/-- C4: for a connected client in state ACCEPTED (registered, not yet
authenticated), an AUTH message whose token equals the configured token
produces exactly one AUTH_SUCCESS reply whose `clientId` field is the
server-assigned id, and marks the client authenticated with `ea_info` read
from the message's `eaInfo` field. -/
theorem C4_auth_success_reply_carries_assigned_id
    (json_msg : Json) (client_id : String)
    (clients : List (String × ClientConnection)) (config : WSServerConfig)
    (now : Int) (token : String) (c : ClientConnection)
    (hc : clients.lookup client_id = some c)
    (hacc : c.authenticated = false)
    (htok : (json_msg.get "token").bind Json.as_str = some token)
    (heq : token = config.auth_token) :
    handle_auth_message json_msg client_id clients config now =
      .ok (some (authSuccessResponse now client_id),
           mapUpdate clients client_id
             (authenticate ((json_msg.get "eaInfo").map parseEAInfo))) ∧
    (authSuccessResponse now client_id).get "type" =
      some (.str "AUTH_SUCCESS") ∧
    (authSuccessResponse now client_id).get "clientId" =
      some (.str client_id) ∧
    ∃ c1 : ClientConnection,
      (mapUpdate clients client_id
          (authenticate ((json_msg.get "eaInfo").map parseEAInfo))).lookup
          client_id = some c1 ∧
      c1.authenticated = true ∧
      c1.ea_info = (json_msg.get "eaInfo").map parseEAInfo ∧
      c1.id = c.id := by
  refine ⟨?_, rfl, rfl, ?_⟩
  · unfold handle_auth_message
    simp only [htok]
    rw [if_neg (by simp [heq])]
  · rw [lookup_mapUpdate_self, hc]
    exact ⟨authenticate ((json_msg.get "eaInfo").map parseEAInfo) c,
      rfl, rfl, rfl, rfl⟩

/-- Witness for C4: the concrete AUTH message `c4_json` against the fresh
client "c" with the default configuration. -/
theorem C4_auth_success_reply_carries_assigned_id_witness :
    handle_auth_message c4_json "c" oneClient cfg0 7 =
      .ok (some (authSuccessResponse 7 "c"),
           mapUpdate oneClient "c"
             (authenticate ((c4_json.get "eaInfo").map parseEAInfo))) ∧
    ((mapUpdate oneClient "c"
        (authenticate ((c4_json.get "eaInfo").map parseEAInfo))).lookup
        "c").map (fun c1 => c1.authenticated) = some true ∧
    ((mapUpdate oneClient "c"
        (authenticate ((c4_json.get "eaInfo").map parseEAInfo))).lookup
        "c").map (fun c1 => c1.ea_info) =
      some (some { version := "1.2", platform := "MT5", account := "A1",
                   server_name := none, company_name := none }) := by
  have h := C4_auth_success_reply_carries_assigned_id c4_json "c" oneClient
    cfg0 7 "hedge-system-default-token" (freshClient "c" 0) rfl rfl rfl rfl
  refine ⟨h.1, ?_, rfl⟩
  rcases h.2.2.2 with ⟨c1, hc1, hauth, -, -⟩
  rw [hc1]
  simp [hauth]

/-! Helper lemmas for the reaper analysis: lookups in filtered association
lists with unique keys. -/

theorem lookup_none_of_not_mem_keys {α : Type} {l : List (String × α)}
    {k : String} (h : k ∉ l.map Prod.fst) : l.lookup k = none := by
  induction l with
  | nil => rfl
  | cons p t ih =>
    obtain ⟨a, b⟩ := p
    simp only [List.map_cons, List.mem_cons, not_or] at h
    have hba : (k == a) = false := beq_eq_false_iff_ne.mpr h.1
    simp [List.lookup, hba, ih h.2]

theorem mem_of_lookup_eq_some {α : Type} {l : List (String × α)} {k : String}
    {v : α} (h : l.lookup k = some v) : (k, v) ∈ l := by
  induction l with
  | nil => cases h
  | cons p t ih =>
    obtain ⟨a, b⟩ := p
    by_cases hk : k = a
    · subst hk
      simp only [List.lookup, beq_self_eq_true, Option.some.injEq] at h
      subst h
      exact List.mem_cons_self _ _
    · have hba : (k == a) = false := beq_eq_false_iff_ne.mpr hk
      simp only [List.lookup, hba] at h
      exact List.mem_cons_of_mem _ (ih h)

theorem pair_eq_of_mem_nodup {α : Type} {l : List (String × α)}
    (hnd : (l.map Prod.fst).Nodup) {p q : String × α}
    (hp : p ∈ l) (hq : q ∈ l) (hk : p.1 = q.1) : p = q := by
  induction l with
  | nil => cases hp
  | cons x t ih =>
    simp only [List.map_cons, List.nodup_cons] at hnd
    rcases List.mem_cons.mp hp with hp1 | hp1 <;>
      rcases List.mem_cons.mp hq with hq1 | hq1
    · rw [hp1, hq1]
    · subst hp1
      exact absurd (hk ▸ List.mem_map_of_mem Prod.fst hq1) hnd.1
    · subst hq1
      exact absurd (hk ▸ List.mem_map_of_mem Prod.fst hp1) hnd.1
    · exact ih hnd.2 hp1 hq1

theorem not_mem_keys_filter {α : Type} {t : List (String × α)} {k : String}
    (P : String × α → Bool) (h : k ∉ t.map Prod.fst) :
    k ∉ (t.filter P).map Prod.fst := by
  intro hk
  rcases List.mem_map.mp hk with ⟨q, hq, hfst⟩
  exact h (hfst ▸ List.mem_map_of_mem Prod.fst (List.mem_filter.mp hq).1)

theorem lookup_filter_of_nodup {α : Type} {l : List (String × α)}
    (hnd : (l.map Prod.fst).Nodup) {k : String} {v : α}
    (hlk : l.lookup k = some v) (P : String × α → Bool) :
    (l.filter P).lookup k = if P (k, v) then some v else none := by
  induction l with
  | nil => cases hlk
  | cons x t ih =>
    obtain ⟨a, b⟩ := x
    simp only [List.map_cons, List.nodup_cons] at hnd
    by_cases hk : k = a
    · subst hk
      simp only [List.lookup, beq_self_eq_true, Option.some.injEq] at hlk
      subst hlk
      by_cases hP : P (k, b)
      · simp [List.filter_cons, hP, List.lookup]
      · simp only [List.filter_cons, hP, Bool.false_eq_true, if_false]
        rw [lookup_none_of_not_mem_keys (not_mem_keys_filter P hnd.1)]
    · have hba : (k == a) = false := beq_eq_false_iff_ne.mpr hk
      have hlk' : t.lookup k = some v := by
        simpa only [List.lookup, hba] using hlk
      by_cases hP : P (a, b)
      · simp only [List.filter_cons, hP, if_true, List.lookup, hba]
        exact ih hnd.2 hlk'
      · simp only [List.filter_cons, hP, Bool.false_eq_true, if_false]
        exact ih hnd.2 hlk'

/-- C9: at a reaper tick at instant `now`, a registered client (no future
heartbeat stamps, elapsed seconds within the `i64` range) is removed from the
registry exactly when its `last_heartbeat` is older than
`connection_timeout_seconds`; a client within the timeout survives the tick
with its record untouched.  Since the reaper ticks every
`heartbeat_interval_seconds`, a silent client is removed within one tick of
the timeout elapsing. -/
theorem C9_reaper_removes_exactly_the_timed_out
    (clients : List (String × ClientConnection)) (pool : ConnectionPool)
    (config : WSServerConfig) (now : Int) (client_id : String)
    (c : ClientConnection)
    (hnd : (clients.map Prod.fst).Nodup)
    (hlk : clients.lookup client_id = some c)
    (hpast : c.last_heartbeat ≤ now)
    (hrange : now - c.last_heartbeat < 2 ^ 63) :
    (heartbeat_tick clients pool config now).1.lookup client_id =
      (if (config.connection_timeout_seconds : Int) < now - c.last_heartbeat
       then none else some c) := by
  have htick : (heartbeat_tick clients pool config now).1 =
      clients.filter (fun p => p.1 ∉ ((clients.filter (fun p =>
        i64_as_u64 (now - p.2.last_heartbeat) >
          config.connection_timeout_seconds)).map Prod.fst)) := rfl
  rw [htick, lookup_filter_of_nodup hnd hlk]
  have hcast : i64_as_u64 (now - c.last_heartbeat)
      = (now - c.last_heartbeat).toNat := by
    unfold i64_as_u64
    rw [Int.emod_eq_of_lt (by omega) (lt_trans hrange (by norm_num))]
  have hcond : (config.connection_timeout_seconds <
      i64_as_u64 (now - c.last_heartbeat)) ↔
      ((config.connection_timeout_seconds : Int) < now - c.last_heartbeat) := by
    rw [hcast]
    exact Int.lt_toNat
  have hmem : client_id ∈ ((clients.filter (fun p =>
      i64_as_u64 (now - p.2.last_heartbeat) >
        config.connection_timeout_seconds)).map Prod.fst) ↔
      ((config.connection_timeout_seconds : Int) < now - c.last_heartbeat) := by
    constructor
    · intro hin
      rcases List.mem_map.mp hin with ⟨q, hq, hfst⟩
      have hqm := List.mem_filter.mp hq
      have hqe : q = (client_id, c) :=
        pair_eq_of_mem_nodup hnd hqm.1 (mem_of_lookup_eq_some hlk)
          (by rw [hfst])
      have hq2 := hqm.2
      rw [hqe] at hq2
      exact hcond.mp (by simpa using hq2)
    · intro hgt
      exact List.mem_map_of_mem Prod.fst
        (List.mem_filter.mpr ⟨mem_of_lookup_eq_some hlk,
          by simpa using hcond.mpr hgt⟩)
  by_cases hgt : (config.connection_timeout_seconds : Int) <
      now - c.last_heartbeat
  · rw [if_pos hgt]
    simp [hmem, hgt]
  · rw [if_neg hgt]
    simp [hmem, hgt]

/-- Witness for C9: with a 2-second timeout, the silent client "c"
(heartbeat stamped at instant 0) is removed by the tick at instant 5 but
survives the tick at instant 1 untouched. -/
theorem C9_reaper_removes_exactly_the_timed_out_witness :
    (heartbeat_tick oneClient ConnectionPool.new c9_cfg 5).1.lookup "c"
      = none ∧
    (heartbeat_tick oneClient ConnectionPool.new c9_cfg 1).1.lookup "c"
      = some (freshClient "c" 0) := by
  constructor
  · exact (C9_reaper_removes_exactly_the_timed_out oneClient
      ConnectionPool.new c9_cfg 5 "c" (freshClient "c" 0) (by decide) rfl
      (by decide) (by decide)).trans (if_pos (by decide))
  · exact (C9_reaper_removes_exactly_the_timed_out oneClient
      ConnectionPool.new c9_cfg 1 "c" (freshClient "c" 0) (by decide) rfl
      (by decide) (by decide)).trans (if_neg (by decide))

/-- C5: for a registered client, `process_message` fails exactly with the
closed error list — "Invalid JSON: …" on parse failure, "Missing message
type" on a missing or non-string `type`, "Unknown message type: X" on an
unrecognized type, "Missing auth token" / "Invalid auth token" on AUTH
without or with a wrong token, "Client not authenticated" on an event type
while unauthenticated — each trigger producing exactly its error; and on
every such error the session loop increments the server `errors` counter and
the client's `error_count` by one, sends nothing, leaves the rest of the
state exactly as the bookkeeping left it, and keeps the connection open. -/
theorem C5_process_message_closed_error_list
    (parsed : Except String Json) (client_id : String)
    (state : WSServerState) (clients : List (String × ClientConnection))
    (config : WSServerConfig) (now : Int) (total_latency : ℚ)
    (send_ok : Bool) (c : ClientConnection)
    (hc : clients.lookup client_id = some c) :
    (∀ e, process_message parsed client_id
        (mapUpdate clients client_id (bookkeepClient now)) config now
        = .error e →
      (∃ d, parsed = .error d ∧ e = "Invalid JSON: " ++ d) ∨
      e = "Missing message type" ∨
      (∃ t, e = "Unknown message type: " ++ t) ∨
      e = "Missing auth token" ∨
      e = "Invalid auth token" ∨
      e = "Client not authenticated") ∧
    (∀ d, parsed = .error d →
      process_message parsed client_id
        (mapUpdate clients client_id (bookkeepClient now)) config now
        = .error ("Invalid JSON: " ++ d)) ∧
    (∀ j, parsed = .ok j → (j.get "type").bind Json.as_str = none →
      process_message parsed client_id
        (mapUpdate clients client_id (bookkeepClient now)) config now
        = .error "Missing message type") ∧
    (∀ j t, parsed = .ok j → (j.get "type").bind Json.as_str = some t →
      t ≠ "AUTH" → t ≠ "HEARTBEAT" → t ∉ eaEventTypes →
      process_message parsed client_id
        (mapUpdate clients client_id (bookkeepClient now)) config now
        = .error ("Unknown message type: " ++ t)) ∧
    (∀ j, parsed = .ok j → (j.get "type").bind Json.as_str = some "AUTH" →
      (j.get "token").bind Json.as_str = none →
      process_message parsed client_id
        (mapUpdate clients client_id (bookkeepClient now)) config now
        = .error "Missing auth token") ∧
    (∀ j tok, parsed = .ok j →
      (j.get "type").bind Json.as_str = some "AUTH" →
      (j.get "token").bind Json.as_str = some tok →
      tok ≠ config.auth_token →
      process_message parsed client_id
        (mapUpdate clients client_id (bookkeepClient now)) config now
        = .error "Invalid auth token") ∧
    (∀ j t, parsed = .ok j → (j.get "type").bind Json.as_str = some t →
      t ∈ eaEventTypes → c.authenticated = false →
      process_message parsed client_id
        (mapUpdate clients client_id (bookkeepClient now)) config now
        = .error "Client not authenticated") ∧
    (∀ e, process_message parsed client_id
        (mapUpdate clients client_id (bookkeepClient now)) config now
        = .error e →
      session_text_step parsed client_id state clients config now
          total_latency send_ok =
        { state := { state with
            total_messages_received := state.total_messages_received + 1,
            errors := state.errors + 1 },
          clients := mapUpdate
            (mapUpdate clients client_id (bookkeepClient now))
            client_id incrErrorCount,
          sent_reply := none,
          continue_loop := true }) := by
  have hc1 : (mapUpdate clients client_id (bookkeepClient now)).lookup
      client_id = some (bookkeepClient now c) := by
    rw [lookup_mapUpdate_self, hc]
    rfl
  refine ⟨?_, ?_, ?_, ?_, ?_, ?_, ?_, ?_⟩
  · intro e he
    cases parsed with
    | error d =>
      simp only [process_message, Except.error.injEq] at he
      exact Or.inl ⟨d, rfl, he.symm⟩
    | ok j =>
      unfold process_message handle_auth_message handle_heartbeat_message
        handle_ea_event_message at he
      rw [hc1] at he
      repeat' split at he
      all_goals first
        | (simp only [Except.error.injEq] at he
           first
             | exact Or.inr (Or.inl he.symm)
             | exact Or.inr (Or.inr (Or.inl ⟨_, he.symm⟩))
             | exact Or.inr (Or.inr (Or.inr (Or.inl he.symm)))
             | exact Or.inr (Or.inr (Or.inr (Or.inr (Or.inl he.symm))))
             | exact Or.inr (Or.inr (Or.inr (Or.inr (Or.inr he.symm)))))
        | simp_all
  · intro d hd
    subst hd
    rfl
  · intro j hj hty
    subst hj
    unfold process_message
    simp only [hty]
  · intro j t hj hty h1 h2 h3
    subst hj
    unfold process_message
    simp only [hty]
    rw [if_neg h1, if_neg h2, if_neg h3]
  · intro j hj hty htok
    subst hj
    unfold process_message handle_auth_message
    simp only [hty]
    rw [if_pos trivial]
    simp only [htok]
  · intro j tok hj hty htok htokne
    subst hj
    unfold process_message handle_auth_message
    simp only [hty]
    rw [if_pos trivial]
    simp only [htok]
    rw [if_pos htokne]
  · intro j t hj hty hmem hauth
    subst hj
    unfold process_message handle_ea_event_message
    simp only [hty]
    have h1 : t ≠ "AUTH" := by
      rintro rfl
      exact absurd hmem (by decide)
    have h2 : t ≠ "HEARTBEAT" := by
      rintro rfl
      exact absurd hmem (by decide)
    rw [if_neg h1, if_neg h2, if_pos hmem]
    simp only [hc1]
    rw [if_pos (by simpa [bookkeepClient] using hauth)]
  · intro e he
    unfold session_text_step
    simp only [he]

/-- Witness for C5: the unknown message type "FOO" from the registered
client "c" yields exactly "Unknown message type: FOO", and the session loop
counts one server error and continues. -/
theorem C5_process_message_closed_error_list_witness :
    process_message (.ok (.obj [("type", .str "FOO")])) "c"
        (mapUpdate oneClient "c" (bookkeepClient 3)) cfg0 3
      = .error "Unknown message type: FOO" ∧
    (session_text_step (.ok (.obj [("type", .str "FOO")])) "c"
        mStarted.state oneClient cfg0 3 0 true).state.errors
      = mStarted.state.errors + 1 ∧
    (session_text_step (.ok (.obj [("type", .str "FOO")])) "c"
        mStarted.state oneClient cfg0 3 0 true).continue_loop = true := by
  have h := C5_process_message_closed_error_list
    (.ok (.obj [("type", .str "FOO")])) "c" mStarted.state oneClient cfg0 3 0
    true (freshClient "c" 0) rfl
  have hperr := h.2.2.2.1 (.obj [("type", .str "FOO")]) "FOO" rfl rfl
    (by decide) (by decide) (by decide)
  have hsess := h.2.2.2.2.2.2.2 "Unknown message type: FOO" hperr
  refine ⟨hperr, ?_, ?_⟩
  · rw [hsess]
  · rw [hsess]
